import Mathlib

/-!
Verification of the `aptos account create` command core
(`crates/aptos/src/account/create.rs`).

The Rust code is an async CLI command that creates an on-chain account
either through a faucet service or by submitting a signed transaction
from an already funded sender.  We embed it shallowly: every network
call is modelled by (a) a `Request` value recorded in an output trace
and (b) a response drawn from a `NetworkEnv` record that plays the role
of the outside world.  Each Rust method becomes a Lean function from its
inputs and the environment to `result × List Request`.

Rust panics (the `unwrap()` in `get_sequence_number`) are modelled by a
third constructor `Outcome.panicked`, distinct from `Outcome.err`.
-/

namespace AptosCreate

/-! ## JSON values (`serde_json::Value`) -/

/-- A model of `serde_json::Value`, the type returned by
`get_account`'s `.json()` call. -/
inductive Json where
  | null : Json
  | bool (b : Bool) : Json
  | num (n : Int) : Json
  | str (s : String) : Json
  | arr (elems : List Json) : Json
  | obj (fields : List (String × Json)) : Json

/-- `serde_json`'s `Value::index` by string key, as used in
`account_response["sequence_number"]`: field lookup on objects,
`Null` on a missing key or on any non-object value. -/
def Json.index (j : Json) (key : String) : Json :=
  match j with
  | .obj fields =>
    match fields.lookup key with
    | some v => v
    | none => .null
  | _ => .null

/-- `serde_json`'s `Value::as_str`: `some` exactly on JSON strings. -/
def Json.as_str : Json → Option String
  | .str s => some s
  | _ => none

/-! ## `str::parse::<u64>` -/

/-- Numeric value of a decimal digit character. -/
def digitVal (c : Char) : Nat := c.toNat - 48

/-- Rust's `str::parse::<u64>`: an optional leading `+` sign, then a
nonempty run of decimal digits whose value fits in 64 bits; anything
else is a parse error (`none`). -/
def parseU64 (s : String) : Option Nat :=
  let cs :=
    match s.data with
    | '+' :: rest => rest
    | cs => cs
  if cs.isEmpty then none
  else if cs.all Char.isDigit then
    let n := cs.foldl (fun acc c => acc * 10 + digitVal c) 0
    if n < 2 ^ 64 then some n else none
  else none

/-! ## Keys, addresses and crypto primitives

`Ed25519PublicKey`, `Ed25519PrivateKey`, SHA3-256 and signing live in
the `aptos-crypto` crate, outside the captured file.  We keep the key
types abstract (a bare identifier) and gather the external primitives
in a `Crypto` record; the command's logic only composes them. -/

/-- Abstract ed25519 public key (the crate's type is opaque bytes). -/
structure Ed25519PublicKey where
  id : Nat
deriving DecidableEq, Repr

/-- Abstract ed25519 private key. -/
structure Ed25519PrivateKey where
  id : Nat
deriving DecidableEq, Repr

/-- `AccountAddress`: wraps the 32 raw bytes (`AccountAddress::new`
takes a `[u8; 32]`).  The length itself is tracked by theorems, via
`Crypto.sha3_len`. -/
structure AccountAddress where
  bytes : List Nat
deriving DecidableEq, Repr

/-- `AccountAddress::new`. -/
def AccountAddress.new (bytes : List Nat) : AccountAddress := ⟨bytes⟩

/-- Modelled from the spec: the cryptographic primitives the command
uses, implemented in `aptos-crypto` / `aptos-types` outside the
captured file: SHA3-256 (a fixed function with 32-byte output, per the
spec's "deterministic hash"), public-key serialization, the
private-to-public map, and raw-transaction signing (the signature is
over the canonical encoding of the raw transaction, so it is a function
of key and raw transaction). -/
structure Crypto where
  sha3_256 : List Nat → List Nat
  sha3_len : ∀ x, (sha3_256 x).length = 32
  pubKeyBytes : Ed25519PublicKey → List Nat
  publicKeyOf : Ed25519PrivateKey → Ed25519PublicKey

/-- Modelled from the spec: `AuthenticationKey::ed25519` — the SHA3-256
hash of the serialized public key followed by the ed25519 scheme
identifier byte `0`. -/
def authenticationKeyEd25519 (c : Crypto) (publicKey : Ed25519PublicKey) : List Nat :=
  c.sha3_256 (c.pubKeyBytes publicKey ++ [0])

/-- Modelled from the spec: `AuthenticationKey::derived_address` — the
account address is the authentication key itself (all 32 bytes). -/
def derivedAddress (authKey : List Nat) : List Nat := authKey

/-- The shared derivation `AccountAddress::new(*AuthenticationKey::ed25519(pk).derived_address())`,
spelled out once; both `get_address` (target address) and
`create_account_with_key` (sender address) perform exactly this
composition in the source. -/
def addressOfPublicKey (c : Crypto) (publicKey : Ed25519PublicKey) : AccountAddress :=
  AccountAddress.new (derivedAddress (authenticationKeyEd25519 c publicKey))

/-- One byte as two lowercase hex digits (`Display` for addresses). -/
def hexByte (b : Nat) : String :=
  let digit : Nat → Char := fun n => if n < 10 then Char.ofNat (48 + n) else Char.ofNat (87 + n)
  String.mk [digit (b / 16 % 16), digit (b % 16)]

/-- Modelled from the spec: `Display` for `AccountAddress` — the bytes
as lowercase hex (an injective textual rendering; the claims only use
that it is a fixed function of the address). -/
def addressToString (a : AccountAddress) : String :=
  String.join (a.bytes.map hexByte)

/-! ## Errors, outcomes, transactions, requests -/

/-- `crate::Error` (aliased `CommonError` in the source); the command
only ever constructs its `UnexpectedError` variant. -/
inductive CommonError where
  | UnexpectedError (msg : String) : CommonError
deriving DecidableEq, Repr

/-- `anyhow::Error` as the command uses it: either a wrapped
`CommonError` (`Error::new(..)` / `?` on a `CommonError`) or a
transport-layer error carrying its rendered message. -/
inductive Error where
  | common (e : CommonError) : Error
  | network (msg : String) : Error
deriving DecidableEq, Repr

/-- Result of running a piece of the command: a value, a returned
error, or a Rust panic (the `unwrap()` path). -/
inductive Outcome (ε α : Type) where
  | ok (a : α) : Outcome ε α
  | err (e : ε) : Outcome ε α
  | panicked (msg : String) : Outcome ε α
deriving DecidableEq, Repr

/-- The create-account payload
(`aptos_stdlib::encode_create_account_script_function(address)`). -/
inductive TransactionPayload where
  | createAccountScriptFunction (newAccount : AccountAddress) : TransactionPayload
deriving DecidableEq, Repr

/-- The raw transaction assembled by the `TransactionFactory` in
`post_account` (expiration timestamp, a wall-clock default of the
factory, is not modelled; no claim mentions it). -/
structure RawTransaction where
  sender : AccountAddress
  sequence_number : Nat
  payload : TransactionPayload
  max_gas_amount : Nat
  gas_unit_price : Nat
  chain_id : Nat
deriving DecidableEq, Repr

/-- A signed transaction: the raw transaction plus the ed25519
authenticator.  The signature is a deterministic function of the
private key and the raw transaction, so recording the pair
(public key, raw transaction) determines it; we record the signer's
public key. -/
structure SignedTransaction where
  raw : RawTransaction
  public_key : Ed25519PublicKey
deriving DecidableEq, Repr

/-- One network call made by the command, as recorded in the trace. -/
inductive Request where
  | getAccount (url : String) : Request
  | faucetPost (url : String) : Request
  | submitTransaction (txn : SignedTransaction) : Request
deriving DecidableEq, Repr

/-- The outside world's responses for one invocation: the node's
account-resource response (or a transport/JSON-decode failure, as a
rendered message), the faucet's HTTP status (or a transport failure),
and the submit-and-wait outcome. -/
structure NetworkEnv where
  accountResource : Except String Json
  faucetStatus : Except String Nat
  submitResult : Except String Unit

/-- The `CreateAccount` command struct.  The two external collaborator
calls (key decoding via `EncodingOptions` and
`PrivateKeyInputOptions::extract_private_key`, both outside the
captured file) are represented by their results:
`decode_public_key` is the result of
`encoding.decode_key(self.public_key)` and `private_key_input` the
result of `extract_private_key(encoding)` (`Ok(None)` when neither
`--private-key` nor `--private-key-file` was supplied). -/
structure CreateAccount where
  private_key_input : Except Error (Option Ed25519PrivateKey)
  decode_public_key : Except String Ed25519PublicKey
  node_url : String
  chain_id : Nat
  use_faucet : Bool

/-! ## The command's methods -/

/-- The URL `format!("{}accounts/{}", self.node.url, account)`. -/
def accountUrl (self : CreateAccount) (account : AccountAddress) : String :=
  self.node_url ++ "accounts/" ++ addressToString account

/-- `CreateAccount::get_account`: `reqwest::get(format!("{}accounts/{}", self.node.url, account)).json()`. -/
def get_account (self : CreateAccount) (env : NetworkEnv) (account : AccountAddress) :
    Except String Json × List Request :=
  (env.accountResource, [Request.getAccount (accountUrl self account)])

/-- `CreateAccount::get_address`: decode the target public key, then
derive `AccountAddress::new(*AuthenticationKey::ed25519(pk).derived_address())`. -/
def get_address (c : Crypto) (self : CreateAccount) : Except String AccountAddress :=
  match self.decode_public_key with
  | .error err => .error err
  | .ok public_key => .ok (addressOfPublicKey c public_key)

/-- `CreateAccount::get_sequence_number`: fetch the account resource,
index the `"sequence_number"` field, `as_str()` it, and
`parse::<u64>().unwrap()` the string — the `unwrap` panics when the
string does not parse. -/
def get_sequence_number (self : CreateAccount) (env : NetworkEnv) (account : AccountAddress) :
    Outcome CommonError Nat × List Request :=
  let (resp, reqs) := get_account self env account
  match resp with
  | .error e => (.err (.UnexpectedError e), reqs)
  | .ok account_response =>
    match (account_response.index "sequence_number").as_str with
    | some number =>
      match parseU64 number with
      | some n => (.ok n, reqs)
      | none => (.panicked "invalid digit found in string", reqs)
    | none => (.err (.UnexpectedError "Sequence number not found"), reqs)

/-- The signed transaction `post_account` assembles:
`TransactionFactory::new(chain_id).with_gas_unit_price(1).with_max_gas_amount(1000)`,
payload `encode_create_account_script_function(address)`, signed by
`LocalAccount::new(sender_address, sender_key, sequence_number)`. -/
def builtTransaction (c : Crypto) (self : CreateAccount)
    (address : AccountAddress) (senderKey : Ed25519PrivateKey)
    (senderAddress : AccountAddress) (sequenceNumber : Nat) : SignedTransaction :=
  { raw :=
      { sender := senderAddress
        sequence_number := sequenceNumber
        payload := TransactionPayload.createAccountScriptFunction address
        max_gas_amount := 1000
        gas_unit_price := 1
        chain_id := self.chain_id }
    public_key := c.publicKeyOf senderKey }

/-- `CreateAccount::post_account`: build the create-account payload,
sign it with gas unit price 1 and max gas amount 1000 at the given
sender and sequence number, submit it and wait. -/
def post_account (c : Crypto) (self : CreateAccount) (env : NetworkEnv)
    (address : AccountAddress) (senderKey : Ed25519PrivateKey)
    (senderAddress : AccountAddress) (sequenceNumber : Nat) :
    Except Error Unit × List Request :=
  let transaction : SignedTransaction :=
    builtTransaction c self address senderKey senderAddress sequenceNumber
  match env.submitResult with
  | .ok _ => (.ok (), [Request.submitTransaction transaction])
  | .error e => (.error (.network e), [Request.submitTransaction transaction])

/-- The faucet base URL: a hardcoded string literal in the source, not
read from any field of the command. -/
def faucetBaseUrl : String := "https://faucet.devnet.aptoslabs.com"

/-- `format!("{}/mint?amount={}&auth_key={}", faucetBaseUrl, "0", address)`. -/
def faucetUrl (address : AccountAddress) : String :=
  faucetBaseUrl ++ "/mint?amount=" ++ "0" ++ "&auth_key=" ++ addressToString address

/-- Modelled from the spec: `Display` for `reqwest::StatusCode` renders
the numeric code (followed by a canonical reason phrase, which we omit;
the claims only inspect the digits). -/
def statusDisplay (status : Nat) : String := toString status

/-- `CreateAccount::create_account_with_faucet`: POST
`{faucet}/mint?amount=0&auth_key={address}`; `Ok` exactly on HTTP 200,
otherwise an `UnexpectedError("Faucet issue: {status}")`. -/
def create_account_with_faucet (self : CreateAccount) (env : NetworkEnv)
    (address : AccountAddress) : Except Error String × List Request :=
  match env.faucetStatus with
  | .error e => (.error (.network e), [Request.faucetPost (faucetUrl address)])
  | .ok status =>
    if status == 200 then
      (.ok (statusDisplay status), [Request.faucetPost (faucetUrl address)])
    else
      (.error (.common (.UnexpectedError ("Faucet issue: " ++ statusDisplay status))),
       [Request.faucetPost (faucetUrl address)])

/-- The error message of the missing-configuration branch. -/
def missingKeyMsg : String :=
  "One of ['--private-key', '--private-key-file', '--use-faucet'] must be provided"

/-- `CreateAccount::create_account_with_key`: extract the private key
(erroring out before any network call when it is absent), derive the
sender address from its public key, fetch the sender's sequence number,
and submit on success. -/
def create_account_with_key (c : Crypto) (self : CreateAccount) (env : NetworkEnv)
    (address : AccountAddress) : Outcome Error String × List Request :=
  match self.private_key_input with
  | .error e => (.err e, [])
  | .ok none => (.err (.common (.UnexpectedError missingKeyMsg)), [])
  | .ok (some privateKey) =>
    let senderAddress := addressOfPublicKey c (c.publicKeyOf privateKey)
    let (sequenceNumber, reqs) := get_sequence_number self env senderAddress
    match sequenceNumber with
    | .ok n =>
      let (r, reqs₂) := post_account c self env address privateKey senderAddress n
      (match r with
       | .ok _ => .ok "Success"
       | .error e => .err e,
       reqs ++ reqs₂)
    | .err e => (.err (.common e), reqs)
    | .panicked m => (.panicked m, reqs)

/-- `CreateAccount::execute_inner`: branch on `use_faucet`. -/
def execute_inner (c : Crypto) (self : CreateAccount) (env : NetworkEnv)
    (address : AccountAddress) : Outcome Error String × List Request :=
  if self.use_faucet then
    let (r, reqs) := create_account_with_faucet self env address
    (match r with
     | .ok s => .ok s
     | .error e => .err e,
     reqs)
  else
    create_account_with_key c self env address

/-- Modelled from the spec: rendering an error as the single
descriptive string the orchestrator prints (`err.to_string()`); the
`Display` impls live outside the captured file and surface the carried
message. -/
def errorToString : Error → String
  | .common (.UnexpectedError m) => m
  | .network m => m

/-- `CreateAccount::execute`: derive the target address (failing
without any network activity when the key does not decode), run the
chosen path, and render the single-line result:
`"Account Created at {address}"` on success, `err.to_string()` on
failure. -/
def execute (c : Crypto) (self : CreateAccount) (env : NetworkEnv) :
    Outcome String String × List Request :=
  match get_address c self with
  | .error e => (.err e, [])
  | .ok address =>
    let (r, reqs) := execute_inner c self env address
    (match r with
     | .ok _ => .ok ("Account Created at " ++ addressToString address)
     | .err e => .err (errorToString e)
     | .panicked m => .panicked m,
     reqs)

/-! ## Basic facts about the traces -/

/-- `get_sequence_number` performs exactly one network call: the
account-resource read for the queried account. -/
lemma get_sequence_number_requests (self : CreateAccount) (env : NetworkEnv)
    (account : AccountAddress) :
    (get_sequence_number self env account).2 = [Request.getAccount (accountUrl self account)] := by
  rcases env with ⟨ar, fs, sr⟩
  rcases ar with e | j
  · rfl
  · show ((match (Json.index j "sequence_number").as_str with
      | some number =>
        match parseU64 number with
        | some n => (Outcome.ok n, [Request.getAccount (accountUrl self account)])
        | none => (Outcome.panicked "invalid digit found in string",
            [Request.getAccount (accountUrl self account)])
      | none => (Outcome.err (CommonError.UnexpectedError "Sequence number not found"),
          [Request.getAccount (accountUrl self account)]) :
        Outcome CommonError Nat × List Request)).2 = _
    rcases (Json.index j "sequence_number").as_str with _ | s
    · rfl
    · show ((match parseU64 s with
        | some n => (Outcome.ok n, [Request.getAccount (accountUrl self account)])
        | none => (Outcome.panicked "invalid digit found in string",
            [Request.getAccount (accountUrl self account)]) :
          Outcome CommonError Nat × List Request)).2 = _
      rcases parseU64 s with _ | n <;> rfl

/-- `post_account` performs exactly one network call: submitting the
built transaction. -/
lemma post_account_requests (c : Crypto) (self : CreateAccount) (env : NetworkEnv)
    (address : AccountAddress) (senderKey : Ed25519PrivateKey)
    (senderAddress : AccountAddress) (sequenceNumber : Nat) :
    (post_account c self env address senderKey senderAddress sequenceNumber).2 =
      [Request.submitTransaction
        (builtTransaction c self address senderKey senderAddress sequenceNumber)] := by
  unfold post_account
  rcases env.submitResult with e | u <;> rfl

/-- Full characterization of the key path once a private key was
extracted: the sender address is derived from the key's public key, the
sequence number is fetched for it, and on success the built transaction
is submitted. -/
lemma create_account_with_key_eq (c : Crypto) (self : CreateAccount) (env : NetworkEnv)
    (address : AccountAddress) (privateKey : Ed25519PrivateKey)
    (hkey : self.private_key_input = .ok (some privateKey)) :
    create_account_with_key c self env address =
      (let sa := addressOfPublicKey c (c.publicKeyOf privateKey)
       match (get_sequence_number self env sa).1 with
       | .ok n =>
         ((match env.submitResult with
           | .ok _ => Outcome.ok "Success"
           | .error e => Outcome.err (.network e)),
          [Request.getAccount (accountUrl self sa),
           Request.submitTransaction (builtTransaction c self address privateKey sa n)])
       | .err e => (.err (.common e), [Request.getAccount (accountUrl self sa)])
       | .panicked m => (.panicked m, [Request.getAccount (accountUrl self sa)])) := by
  unfold create_account_with_key
  rw [hkey]
  dsimp only
  have h2 := get_sequence_number_requests self env
    (addressOfPublicKey c (c.publicKeyOf privateKey))
  conv_lhs =>
    rw [← Prod.mk.eta
      (p := get_sequence_number self env (addressOfPublicKey c (c.publicKeyOf privateKey))), h2]
  dsimp only
  cases h1 : (get_sequence_number self env (addressOfPublicKey c (c.publicKeyOf privateKey))).1 with
  | ok n =>
    unfold post_account
    rcases env.submitResult with e | u <;> rfl
  | err e => rfl
  | panicked m => rfl

/-! ## Concrete fixtures

A concrete instantiation of the external primitives and some concrete
commands, environments and addresses, used by the witnesses and
counterexamples. -/

/-- A concrete `Crypto` (the theorems quantify over every instance). -/
def testCrypto : Crypto where
  sha3_256 := fun x => List.replicate 31 0 ++ [x.length % 256]
  sha3_len := fun x => by simp
  pubKeyBytes := fun pk => [pk.id % 256]
  publicKeyOf := fun sk => ⟨sk.id + 1⟩

/-- A command instance with a usable private key, on the key path. -/
def baseSelf : CreateAccount where
  private_key_input := .ok (some ⟨7⟩)
  decode_public_key := .ok ⟨3⟩
  node_url := "http://localhost:8080/"
  chain_id := 4
  use_faucet := false

/-- An account-resource JSON object whose `sequence_number` field holds
the given string. -/
def seqJson (s : String) : Json := .obj [("sequence_number", .str s)]

/-- A benign environment: sequence number `"5"`, faucet 200, submit ok. -/
def baseEnv : NetworkEnv where
  accountResource := .ok (seqJson "5")
  faucetStatus := .ok 200
  submitResult := .ok ()

/-- A concrete all-zero 32-byte address. -/
def addr0 : AccountAddress := ⟨List.replicate 32 0⟩

/-! ## The claims -/

/-- C7: address derivation is a pure deterministic function — for every
crypto instantiation and every public key `P`, deriving the address
from `P` twice yields identical results (the model is a function, with
no randomness or side-effect input), and the result is the 32-byte
SHA3-256 output wrapped in `AccountAddress`. -/
theorem C7_address_derivation_deterministic (c : Crypto) (P : Ed25519PublicKey) :
    addressOfPublicKey c P = addressOfPublicKey c P ∧
    (addressOfPublicKey c P).bytes.length = 32 :=
  ⟨rfl, c.sha3_len _⟩

/-- C8: every transaction built by `post_account` carries the hardcoded
gas unit price 1 and max gas amount 1000, for all values of every
input. -/
theorem C8_fixed_gas_parameters (c : Crypto) (self : CreateAccount) (env : NetworkEnv)
    (address : AccountAddress) (senderKey : Ed25519PrivateKey)
    (senderAddress : AccountAddress) (sequenceNumber : Nat) :
    ∃ t, (post_account c self env address senderKey senderAddress sequenceNumber).2 =
        [Request.submitTransaction t] ∧
      t.raw.gas_unit_price = 1 ∧ t.raw.max_gas_amount = 1000 :=
  ⟨builtTransaction c self address senderKey senderAddress sequenceNumber,
   post_account_requests c self env address senderKey senderAddress sequenceNumber, rfl, rfl⟩

/-- C3 (amended): every faucet-path invocation issues exactly one
request, a POST to `/mint` with `amount=0` and `auth_key` the derived
target address — but against the hardcoded devnet faucet base URL,
which is a string literal in the source, not an input. -/
theorem C3_faucet_request_shape (self : CreateAccount) (env : NetworkEnv)
    (address : AccountAddress) :
    (create_account_with_faucet self env address).2 = [Request.faucetPost (faucetUrl address)] ∧
    faucetUrl address =
      "https://faucet.devnet.aptoslabs.com/mint?amount=0&auth_key=" ++ addressToString address := by
  constructor
  · unfold create_account_with_faucet
    rcases env.faucetStatus with e | status
    · rfl
    · by_cases h : status = 200 <;> simp [h]
  · rfl

/-- A faucet-path command whose node URL input is `http://node-a.example/`. -/
def selfC3a : CreateAccount := { baseSelf with node_url := "http://node-a.example/", use_faucet := true }

/-- A faucet-path command whose node URL input is `http://node-b.example/`. -/
def selfC3b : CreateAccount := { baseSelf with node_url := "http://node-b.example/", use_faucet := true }

set_option maxRecDepth 100000 in
/-- C3 counterexample: the faucet request URL is not built from any
supplied base URL.  The two invocations below differ in the command's
only URL input (the node URL), yet issue the identical faucet request;
its URL starts with the hardcoded devnet base and with neither
supplied URL. -/
theorem C3_counterexample :
    (create_account_with_faucet selfC3a baseEnv addr0).2 =
      (create_account_with_faucet selfC3b baseEnv addr0).2 ∧
    selfC3a.node_url ≠ selfC3b.node_url ∧
    "https://faucet.devnet.aptoslabs.com".data.isPrefixOf (faucetUrl addr0).data = true ∧
    selfC3a.node_url.data.isPrefixOf (faucetUrl addr0).data = false ∧
    selfC3b.node_url.data.isPrefixOf (faucetUrl addr0).data = false :=
  ⟨rfl, by decide, by decide, by decide, by decide⟩

/-- C6: given a faucet response with HTTP status `status`, the faucet
path succeeds iff `status = 200`; on any other status the result is an
`UnexpectedError` whose message is `"Faucet issue: "` followed by the
rendered status and hence contains the status code's digits. -/
theorem C6_faucet_success_iff_200 (self : CreateAccount) (env : NetworkEnv)
    (address : AccountAddress) (status : Nat)
    (hstatus : env.faucetStatus = .ok status) :
    ((∃ s, (create_account_with_faucet self env address).1 = .ok s) ↔ status = 200) ∧
    (status ≠ 200 →
      (create_account_with_faucet self env address).1 =
        .error (.common (.UnexpectedError ("Faucet issue: " ++ statusDisplay status))) ∧
      (toString status).data <:+: ("Faucet issue: " ++ statusDisplay status).data) := by
  unfold create_account_with_faucet
  rw [hstatus]
  by_cases h : status = 200
  · subst h
    exact ⟨by simp, fun hne => absurd rfl hne⟩
  · refine ⟨by simp [h], fun _ => ⟨by simp [h], ?_⟩⟩
    show (toString status).data <:+: ("Faucet issue: " ++ statusDisplay status).data
    rw [String.data_append]
    exact (List.suffix_append _ _).isInfix

/-- A faucet-path environment in which the faucet answers HTTP 503. -/
def envC6 : NetworkEnv := { baseEnv with faucetStatus := .ok 503 }

/-- Witness for C6 at the spec's Scenario D: faucet responds 503, the
command fails and the error message contains `"503"`. -/
theorem C6_witness :
    ((∃ s, (create_account_with_faucet selfC3a envC6 addr0).1 = .ok s) ↔ (503 : Nat) = 200) ∧
    ((503 : Nat) ≠ 200 →
      (create_account_with_faucet selfC3a envC6 addr0).1 =
        .error (.common (.UnexpectedError ("Faucet issue: " ++ statusDisplay 503))) ∧
      (toString (503 : Nat)).data <:+: ("Faucet issue: " ++ statusDisplay 503).data) :=
  C6_faucet_success_iff_200 selfC3a envC6 addr0 503 rfl

/-- C1: on the key path, the sequence number embedded in every signed
transaction the command submits equals exactly the value the
sequence-number fetch for the sender account produced — it is passed
through unchanged, never incremented, decremented or replaced by a
cached value. -/
theorem C1_signed_sequence_equals_fetched (c : Crypto) (self : CreateAccount)
    (env : NetworkEnv) (address : AccountAddress) (privateKey : Ed25519PrivateKey) (n : Nat)
    (hkey : self.private_key_input = .ok (some privateKey))
    (hseq : (get_sequence_number self env
      (addressOfPublicKey c (c.publicKeyOf privateKey))).1 = .ok n) :
    ∀ t, Request.submitTransaction t ∈ (create_account_with_key c self env address).2 →
      t.raw.sequence_number = n := by
  intro t ht
  rw [create_account_with_key_eq c self env address privateKey hkey] at ht
  simp only [hseq] at ht
  rcases List.mem_cons.mp ht with h1 | h1
  · simp at h1
  · rw [List.mem_singleton] at h1
    rw [Request.submitTransaction.injEq] at h1
    rw [h1]
    rfl

/-- The sender address the concrete fixture key `⟨7⟩` derives to. -/
def senderAddrW : AccountAddress := addressOfPublicKey testCrypto (testCrypto.publicKeyOf ⟨7⟩)

/-- The transaction the fixture run signs: sender `senderAddrW`,
sequence number 5. -/
def builtW : SignedTransaction := builtTransaction testCrypto baseSelf addr0 ⟨7⟩ senderAddrW 5

/-- Witness for C1 at the spec's Scenario B: the node reports
`sequence_number` `"5"` and the submitted transaction carries 5. -/
theorem C1_witness :
    (get_sequence_number baseSelf baseEnv senderAddrW).1 = .ok 5 ∧
    builtW.raw.sequence_number = 5 :=
  ⟨rfl, C1_signed_sequence_equals_fetched testCrypto baseSelf baseEnv addr0 ⟨7⟩ 5 rfl rfl
    builtW (List.mem_cons_of_mem _ (List.mem_singleton.mpr rfl))⟩

/-- C2 (amended): given a well-formed JSON response, the lookup returns
the error result `"Sequence number not found"` when the
`sequence_number` field is absent or not a JSON string; when the field
is a string that does not parse as `u64`, however, the code panics on
`unwrap` instead of returning an error; a parsable string yields its
value. -/
theorem C2_sequence_lookup (self : CreateAccount) (env : NetworkEnv)
    (account : AccountAddress) (j : Json)
    (hresp : env.accountResource = .ok j) :
    ((j.index "sequence_number").as_str = none →
      (get_sequence_number self env account).1 =
        .err (.UnexpectedError "Sequence number not found")) ∧
    (∀ s, (j.index "sequence_number").as_str = some s →
      (parseU64 s = none →
        (get_sequence_number self env account).1 = .panicked "invalid digit found in string") ∧
      (∀ n, parseU64 s = some n → (get_sequence_number self env account).1 = .ok n)) := by
  unfold get_sequence_number get_account
  rw [hresp]
  dsimp only
  refine ⟨fun h => ?_, fun s hs => ⟨fun hp => ?_, fun n hp => ?_⟩⟩
  · rw [h]
  · rw [hs]
    dsimp only
    rw [hp]
  · rw [hs]
    dsimp only
    rw [hp]

/-- Witness for C2's amended statement: field absent → error result. -/
theorem C2_witness :
    ((Json.obj []).index "sequence_number").as_str = none ∧
    (get_sequence_number baseSelf { baseEnv with accountResource := .ok (.obj []) } addr0).1 =
      .err (.UnexpectedError "Sequence number not found") :=
  ⟨rfl, (C2_sequence_lookup baseSelf { baseEnv with accountResource := .ok (.obj []) }
    addr0 (.obj []) rfl).1 rfl⟩

/-- An environment whose account resource carries the non-numeric
sequence-number string `"abc"`. -/
def envC2 : NetworkEnv := { baseEnv with accountResource := .ok (seqJson "abc") }

/-- C2 counterexample: with well-formed JSON whose `sequence_number`
field holds the string `"abc"` — not parsable as an unsigned integer,
so the claim demands a ParseError result — the lookup does not return
an error result: it panics on the `unwrap`. -/
theorem C2_counterexample :
    (Json.index (seqJson "abc") "sequence_number").as_str = some "abc" ∧
    parseU64 "abc" = none ∧
    (get_sequence_number baseSelf envC2 addr0).1 =
      Outcome.panicked "invalid digit found in string" :=
  ⟨rfl, rfl, rfl⟩

/-- C4: with the faucet flag off and no usable private key extracted,
`execute` performs zero network calls and fails: with the
missing-configuration message when the target public key decodes, or
with the decoding error otherwise. -/
theorem C4_missing_key_zero_network (c : Crypto) (self : CreateAccount) (env : NetworkEnv)
    (hfaucet : self.use_faucet = false)
    (hkey : self.private_key_input = .ok none) :
    (execute c self env).2 = [] ∧
    (∀ P, self.decode_public_key = .ok P → (execute c self env).1 = .err missingKeyMsg) ∧
    (∀ e, self.decode_public_key = .error e → (execute c self env).1 = .err e) := by
  rcases hdec : self.decode_public_key with e | P
  · have hex : execute c self env = (.err e, []) := by
      unfold execute get_address
      rw [hdec]
    refine ⟨by rw [hex], fun P hP => ?_, fun e2 he => ?_⟩
    · exact absurd hP (by simp)
    · injection he with h
      rw [hex, h]
  · have hex : execute c self env = (.err missingKeyMsg, []) := by
      unfold execute get_address execute_inner create_account_with_key
      rw [hdec, hfaucet, hkey]
      rfl
    refine ⟨by rw [hex], fun P2 hP => by rw [hex], fun e2 he => ?_⟩
    exact absurd he (by simp)

/-- A command with the faucet flag off and no private key supplied. -/
def selfC4 : CreateAccount := { baseSelf with private_key_input := .ok none }

/-- Witness for C4: the fixture with no key fails with the
configuration message and its trace is empty. -/
theorem C4_witness :
    (execute testCrypto selfC4 baseEnv).2 = [] ∧
    (execute testCrypto selfC4 baseEnv).1 = .err missingKeyMsg := by
  obtain ⟨h1, h2, _⟩ := C4_missing_key_zero_network testCrypto selfC4 baseEnv rfl rfl
  exact ⟨h1, h2 ⟨3⟩ rfl⟩

/-- C5: on the key path, when the sequence-number fetch returns an
error (for instance because the sender's account resource is absent),
the command returns that same error — wrapped into the command's error
type unchanged — and no transaction is ever built or submitted: the
trace contains no submission request. -/
theorem C5_fetch_error_no_submission (c : Crypto) (self : CreateAccount) (env : NetworkEnv)
    (address : AccountAddress) (privateKey : Ed25519PrivateKey) (e : CommonError)
    (hkey : self.private_key_input = .ok (some privateKey))
    (hseq : (get_sequence_number self env
      (addressOfPublicKey c (c.publicKeyOf privateKey))).1 = .err e) :
    (create_account_with_key c self env address).1 = .err (.common e) ∧
    ∀ t, Request.submitTransaction t ∉ (create_account_with_key c self env address).2 := by
  rw [create_account_with_key_eq c self env address privateKey hkey]
  simp only [hseq]
  simp

/-- An environment in which the sender account resource is an object
with no `sequence_number` field (the NotFound shape of the response). -/
def envC5 : NetworkEnv := { baseEnv with accountResource := .ok (.obj []) }

/-- Witness for C5 at the spec's Scenario C: the fetch fails, the
command returns the derived error. -/
theorem C5_witness :
    (create_account_with_key testCrypto baseSelf envC5 addr0).1 =
      .err (.common (.UnexpectedError "Sequence number not found")) :=
  (C5_fetch_error_no_submission testCrypto baseSelf envC5 addr0 ⟨7⟩
    (.UnexpectedError "Sequence number not found") rfl rfl).1

/-- C9 (amended): every invocation resolves to exactly one of three
mutually exclusive outcomes (constructors of `Outcome`): a single
success message naming the address derived from the target public key,
a single error string, or — as the counterexample forces — a panic of
the sequence-number `unwrap`; success and error never coexist. -/
theorem C9_single_outcome (c : Crypto) (self : CreateAccount) (env : NetworkEnv) :
    (∃ a, get_address c self = .ok a ∧
      (execute c self env).1 = .ok ("Account Created at " ++ addressToString a)) ∨
    (∃ m, (execute c self env).1 = .err m) ∨
    (∃ m, (execute c self env).1 = .panicked m) := by
  unfold execute
  rcases hdec : get_address c self with e | a
  · exact .inr (.inl ⟨e, rfl⟩)
  · dsimp only
    rcases hinner : execute_inner c self env a with ⟨r, reqs⟩
    dsimp only
    cases r with
    | ok s => exact .inl ⟨a, rfl, rfl⟩
    | err e => exact .inr (.inl ⟨errorToString e, rfl⟩)
    | panicked m => exact .inr (.inr ⟨m, rfl⟩)

/-- An environment whose sequence-number field is the unparsable
string `"12x"`. -/
def envC9 : NetworkEnv := { baseEnv with accountResource := .ok (seqJson "12x") }

/-- C9 counterexample: a key-path invocation whose fetched
`sequence_number` field is the string `"12x"` produces neither a
success line nor a single error message — the command panics inside
`get_sequence_number`'s `unwrap`, so "on every failed invocation the
output is a single error message" fails on the code. -/
theorem C9_counterexample :
    (execute testCrypto baseSelf envC9).1 =
      Outcome.panicked "invalid digit found in string" := rfl

/-- C10: on the key path the sender address — the address whose
sequence number is fetched, and the sender field of every submitted
transaction — equals `addressOfPublicKey` applied to the public key of
the supplied private key, and `get_address` applies the very same
derivation to the target public key: fed the same public key it
returns the same address. -/
theorem C10_sender_address_same_derivation (c : Crypto) (self : CreateAccount)
    (env : NetworkEnv) (address : AccountAddress) (privateKey : Ed25519PrivateKey)
    (hkey : self.private_key_input = .ok (some privateKey)) :
    ((create_account_with_key c self env address).2.head? =
      some (Request.getAccount (accountUrl self
        (addressOfPublicKey c (c.publicKeyOf privateKey))))) ∧
    (∀ t, Request.submitTransaction t ∈ (create_account_with_key c self env address).2 →
      t.raw.sender = addressOfPublicKey c (c.publicKeyOf privateKey)) ∧
    (∀ other : CreateAccount,
      other.decode_public_key = .ok (c.publicKeyOf privateKey) →
      get_address c other = .ok (addressOfPublicKey c (c.publicKeyOf privateKey))) := by
  rw [create_account_with_key_eq c self env address privateKey hkey]
  refine ⟨?_, ?_, fun other hdec => ?_⟩
  · cases hs : (get_sequence_number self env
      (addressOfPublicKey c (c.publicKeyOf privateKey))).1 with
    | ok n => simp only [hs]; rfl
    | err e => simp only [hs]; rfl
    | panicked m => simp only [hs]; rfl
  · intro t ht
    cases hs : (get_sequence_number self env
        (addressOfPublicKey c (c.publicKeyOf privateKey))).1 with
    | ok n =>
      simp only [hs] at ht
      rcases List.mem_cons.mp ht with h1 | h1
      · simp at h1
      · rw [List.mem_singleton] at h1
        rw [Request.submitTransaction.injEq] at h1
        rw [h1]
        rfl
    | err e => simp only [hs] at ht; simp at ht
    | panicked m => simp only [hs] at ht; simp at ht
  · unfold get_address
    rw [hdec]

/-- Witness for C10: in the fixture run, the fetch targets exactly the
address derived from the supplied key's public key. -/
theorem C10_witness :
    (create_account_with_key testCrypto baseSelf baseEnv addr0).2.head? =
      some (Request.getAccount (accountUrl baseSelf senderAddrW)) :=
  (C10_sender_address_same_derivation testCrypto baseSelf baseEnv addr0 ⟨7⟩ rfl).1

end AptosCreate
